import Mathlib

/-!
Verification of the moduleQC scripts (HGC-FNAL repository).

Each section shallowly embeds the part of a Python script that a claim is
about: pure fragments become Lean functions, the effectful parts (database
round trips, connection lifecycle, exception handlers) become explicit data
(lists of events, outcome records) transcribed line by line from the source.
-/

namespace ModuleQC

/-! ### fetch_testing_data: SQL filter construction
From `compareIV.py` lines 18-37 (identical in `getall_modules.py` and
`fnal_IVcompare.py`).  The Python:

  placeholders = ', '.join(f'$\x7bi+1\x7d' for i in range(len(module_list)))
                 if module_list and module_list[0] != 'ALL' else ''
  module_filter = f"WHERE module_name IN (\x7bplaceholders\x7d)"
                  if module_list and module_list[0] != 'ALL' else ""
  ...
  if module_list and module_list[0] == 'ALL':
      rows = await conn.fetch(query)
  else:
      rows = await conn.fetch(query, *module_list)

`module_list` defaults to None; we model it as `Option (List String)`,
with Python truthiness: None and the empty list are falsy. -/

/-- Python truthiness test `module_list and module_list[0] != 'ALL'`. -/
def useModuleFilter (module_list : Option (List String)) : Bool :=
  match module_list with
  | none => false
  | some l => !l.isEmpty && !(l.head? == some "ALL")

/-- The generator `(f'$\x7bi+1\x7d' for i in range(n))`: positional placeholders. -/
def placeholderList (n : Nat) : List String :=
  (List.range n).map (fun i => "$" ++ toString (i + 1))

/-- `placeholders = ', '.join(...) if ... else ''`. -/
def placeholders (module_list : Option (List String)) : String :=
  if useModuleFilter module_list then
    String.intercalate ", " (placeholderList ((module_list.getD []).length))
  else ""

/-- `module_filter = f"WHERE module_name IN (...)" if ... else ""`. -/
def module_filter (module_list : Option (List String)) : String :=
  if useModuleFilter module_list then
    "WHERE module_name IN (" ++ placeholders module_list ++ ")"
  else ""

/-- The positional parameters passed to `conn.fetch`: none in the
`module_list[0] == 'ALL'` branch, `*module_list` in the other branch
(callers in the repository always pass a non-empty list). -/
def fetchParams (module_list : Option (List String)) : List String :=
  match module_list with
  | none => []
  | some l => if !l.isEmpty && l.head? == some "ALL" then [] else l

theorem placeholderList_length (n : Nat) : (placeholderList n).length = n := by
  simp [placeholderList]

/-- Claim C1: for a non-empty module list whose first element is the literal
"ALL", the query is built with an empty module filter and executed with no
parameters; for a non-empty list whose first element is not "ALL", the query
carries a `WHERE module_name IN (...)` clause holding exactly one positional
placeholder per list element and is executed with the list elements as the
parameters. -/
theorem fetch_testing_data_filter_spec (l : List String) (hne : l ≠ []) :
    (l.head? = some "ALL" →
        module_filter (some l) = "" ∧ fetchParams (some l) = []) ∧
    (l.head? ≠ some "ALL" →
        module_filter (some l) =
          "WHERE module_name IN (" ++
            String.intercalate ", " (placeholderList l.length) ++ ")" ∧
        (placeholderList l.length).length = l.length ∧
        fetchParams (some l) = l) := by
  have hne' : l.isEmpty = false := by
    cases l with
    | nil => exact absurd rfl hne
    | cons a t => rfl
  constructor
  · intro hall
    constructor
    · simp [module_filter, useModuleFilter, hne', hall]
    · simp [fetchParams, hne', hall]
  · intro hnall
    have hb : (l.head? == some "ALL") = false := by
      simp [beq_eq_false_iff_ne]
      exact hnall
    refine ⟨?_, placeholderList_length l.length, ?_⟩
    · simp [module_filter, placeholders, useModuleFilter, hne', hb]
    · simp [fetchParams, hne', hb]

/-- Witness for C1 at the concrete inputs ["ALL"] and ["M1", "M2"]. -/
theorem fetch_testing_data_filter_spec_witness :
    (module_filter (some ["ALL"]) = "" ∧ fetchParams (some ["ALL"]) = []) ∧
    (module_filter (some ["M1", "M2"]) =
        "WHERE module_name IN (" ++
          String.intercalate ", " (placeholderList 2) ++ ")" ∧
      (placeholderList 2).length = 2 ∧
      fetchParams (some ["M1", "M2"]) = ["M1", "M2"]) :=
  ⟨(fetch_testing_data_filter_spec ["ALL"] (by decide)).1 (by decide),
   (fetch_testing_data_filter_spec ["M1", "M2"] (by decide)).2 (by decide)⟩

/-! ### verify_and_update_table_schema: schema evolution
From `fetchCMUdata.py` lines 31-94 and `uploadFNAL_IVdata.py` lines 41-92.
The routine fetches `(column_name, data_type)` rows from
`information_schema.columns` for table `module_tests`; if none are reported
it creates the table; otherwise, for each entry of its fixed
`expected_columns` dict (in order) it adds the column when absent and
alters its type when the reported type differs case-insensitively. -/

/-- A reported or stored table schema: `(column_name, data_type)` rows. -/
abbrev ColumnInfo := List (String × String)

/-- Lookup of `existing_columns[col_name]` in the dict built from the
`information_schema.columns` rows. -/
def lookupType (existing : ColumnInfo) (name : String) : Option String :=
  (existing.find? (fun p => p.1 == name)).map (fun p => p.2)

/-- `cols.any`: whether a column of this name exists in the table. -/
def hasColumn (cols : ColumnInfo) (name : String) : Bool :=
  cols.any (fun p => p.1 == name)

/-- The DDL statements the routine can issue. -/
inductive SchemaAction where
  | createTable : SchemaAction
  | addColumn : String → String → SchemaAction
  | alterColumnType : String → String → SchemaAction
deriving DecidableEq, Repr

/-- The per-column loop: for each expected `(col_name, col_type)`, an
`ADD COLUMN` when absent, an `ALTER COLUMN TYPE` when the reported type
differs case-insensitively, nothing otherwise. -/
def columnActions (expected : List (String × String)) (existing : ColumnInfo) :
    List SchemaAction :=
  expected.flatMap (fun p =>
    match lookupType existing p.1 with
    | none => [SchemaAction.addColumn p.1 p.2]
    | some dt =>
        if dt.toLower ≠ p.2.toLower then [SchemaAction.alterColumnType p.1 p.2]
        else [])

/-- `verify_and_update_table_schema` as the list of DDL statements issued,
given the `information_schema.columns` rows for `module_tests`. -/
def verify_and_update_table_schema (expected : List (String × String))
    (existing : ColumnInfo) : List SchemaAction :=
  if existing.isEmpty then [SchemaAction.createTable]
  else columnActions expected existing

/-- `expected_columns` of `fetchCMUdata.py` (lines 33-52). -/
def fetchCMU_expected_columns : List (String × String) :=
  [("module_name", "TEXT"), ("test_type", "TEXT"), ("status", "INTEGER"),
   ("status_desc", "TEXT"), ("ratio_i_at_vs", "REAL"), ("ratio_at_vs", "REAL[]"),
   ("rel_hum", "TEXT"), ("temp_c", "TEXT"), ("date_test", "DATE"),
   ("meas_v", "REAL[]"), ("meas_i", "REAL[]"), ("bias_vol", "REAL"),
   ("count_bad_cells", "SMALLINT"), ("list_dead_cells", "SMALLINT[]"),
   ("list_noisy_cells", "SMALLINT[]"), ("list_disconnected_cells", "SMALLINT[]"),
   ("site_name", "TEXT"), ("imported_at", "TIMESTAMP")]

/-- Columns of the `CREATE TABLE module_tests` statement in
`fetchCMUdata.py` (lines 63-85). -/
def fetchCMU_created_columns : ColumnInfo :=
  [("id", "SERIAL"), ("module_name", "TEXT"), ("test_type", "TEXT"),
   ("status", "INTEGER"), ("status_desc", "TEXT"), ("ratio_i_at_vs", "REAL"),
   ("ratio_at_vs", "REAL[]"), ("rel_hum", "TEXT"), ("temp_c", "TEXT"),
   ("date_test", "DATE"), ("meas_v", "REAL[]"), ("meas_i", "REAL[]"),
   ("bias_vol", "REAL"), ("count_bad_cells", "SMALLINT"),
   ("list_dead_cells", "SMALLINT[]"), ("list_noisy_cells", "SMALLINT[]"),
   ("list_disconnected_cells", "SMALLINT[]"), ("site_name", "TEXT"),
   ("imported_at", "TIMESTAMP")]

/-- `expected_columns` of `uploadFNAL_IVdata.py` (lines 44-55). -/
def uploadFNAL_expected_columns : List (String × String) :=
  [("module_name", "TEXT"), ("test_type", "TEXT"), ("meas_v", "REAL[]"),
   ("meas_i", "REAL[]"), ("rel_hum", "TEXT"), ("temp_c", "TEXT"),
   ("date_test", "DATE"), ("test_timestamp", "TIMESTAMP"),
   ("imported_at", "TIMESTAMP"), ("comments", "TEXT")]

/-- Columns of the `CREATE TABLE module_tests` statement in
`uploadFNAL_IVdata.py` (lines 68-82). -/
def uploadFNAL_created_columns : ColumnInfo :=
  [("id", "SERIAL"), ("module_name", "TEXT"), ("test_type", "TEXT"),
   ("meas_v", "REAL[]"), ("meas_i", "REAL[]"), ("rel_hum", "TEXT"),
   ("temp_c", "TEXT"), ("date_test", "DATE"), ("test_timestamp", "TIMESTAMP"),
   ("imported_at", "TIMESTAMP"), ("comments", "TEXT")]

/-- Effect of one DDL statement on the stored table schema. -/
def applyAction (createCols : ColumnInfo) (cols : ColumnInfo) :
    SchemaAction → ColumnInfo
  | SchemaAction.createTable => createCols
  | SchemaAction.addColumn n t => cols ++ [(n, t)]
  | SchemaAction.alterColumnType n t =>
      cols.map (fun p => if p.1 == n then (n, t) else p)

/-- Table schema after the routine completes. -/
def resultingColumns (expected : List (String × String))
    (createCols : ColumnInfo) (existing : ColumnInfo) : ColumnInfo :=
  (verify_and_update_table_schema expected existing).foldl
    (applyAction createCols) existing

theorem lookupType_none_iff (existing : ColumnInfo) (name : String) :
    lookupType existing name = none ↔ hasColumn existing name = false := by
  induction existing with
  | nil => simp [lookupType, hasColumn]
  | cons p t ih =>
      by_cases h : (p.1 == name) = true
      · simp [lookupType, hasColumn, List.find?, h]
      · have h' : (p.1 == name) = false := by
          cases hb : (p.1 == name) with
          | true => exact absurd hb h
          | false => rfl
        simp only [lookupType, hasColumn, List.find?, h', List.any_cons,
          Bool.false_or] at *
        exact ih

theorem createTable_not_mem_columnActions
    (expected : List (String × String)) (existing : ColumnInfo) :
    SchemaAction.createTable ∉ columnActions expected existing := by
  intro hmem
  rw [columnActions, List.mem_flatMap] at hmem
  obtain ⟨p, _, hin⟩ := hmem
  cases hl : lookupType existing p.1 with
  | none => rw [hl] at hin; simp at hin
  | some dt =>
      rw [hl] at hin
      by_cases hne : dt.toLower ≠ p.2.toLower
      · simp [hne] at hin
      · simp [hne] at hin

theorem hasColumn_alterMap (cols : ColumnInfo) (n t name : String)
    (h : hasColumn cols name = true) :
    hasColumn (cols.map (fun p => if p.1 == n then (n, t) else p)) name = true := by
  induction cols with
  | nil => simp [hasColumn] at h
  | cons p tl ih =>
      simp only [hasColumn, List.map_cons, List.any_cons, Bool.or_eq_true] at *
      rcases h with hh | ht
      · left
        by_cases hpn : (p.1 == n) = true
        · rw [if_pos hpn]
          show (n == name) = true
          rw [← eq_of_beq hpn]; exact hh
        · rw [if_neg hpn]; exact hh
      · right; exact ih ht

theorem hasColumn_applyAction (createCols cols : ColumnInfo)
    (a : SchemaAction) (name : String) (ha : a ≠ SchemaAction.createTable)
    (h : hasColumn cols name = true) :
    hasColumn (applyAction createCols cols a) name = true := by
  cases a with
  | createTable => exact absurd rfl ha
  | addColumn n t =>
      simp only [applyAction, hasColumn, List.any_append, Bool.or_eq_true] at *
      exact Or.inl h
  | alterColumnType n t =>
      simpa [applyAction] using hasColumn_alterMap cols n t name h

theorem hasColumn_foldl_preserved (createCols : ColumnInfo)
    (as : List SchemaAction) (cols : ColumnInfo) (name : String)
    (hnc : SchemaAction.createTable ∉ as)
    (h : hasColumn cols name = true) :
    hasColumn (as.foldl (applyAction createCols) cols) name = true := by
  induction as generalizing cols with
  | nil => simpa using h
  | cons a t ih =>
      have ha : a ≠ SchemaAction.createTable := by
        intro he; exact hnc (he ▸ List.mem_cons_self a t)
      have hnt : SchemaAction.createTable ∉ t := fun hm => hnc (List.mem_cons_of_mem a hm)
      exact ih (applyAction createCols cols a) hnt
        (hasColumn_applyAction createCols cols a name ha h)

theorem hasColumn_foldl_added (createCols : ColumnInfo)
    (as : List SchemaAction) (cols : ColumnInfo) (name ty : String)
    (hnc : SchemaAction.createTable ∉ as)
    (hmem : SchemaAction.addColumn name ty ∈ as) :
    hasColumn (as.foldl (applyAction createCols) cols) name = true := by
  induction as generalizing cols with
  | nil => simp at hmem
  | cons a t ih =>
      have hnt : SchemaAction.createTable ∉ t := fun hm => hnc (List.mem_cons_of_mem a hm)
      rcases List.mem_cons.mp hmem with he | hm
      · subst he
        have hadd : hasColumn (applyAction createCols cols (SchemaAction.addColumn name ty)) name = true := by
          simp [applyAction, hasColumn, List.any_append]
        exact hasColumn_foldl_preserved createCols t _ name hnt hadd
      · exact ih (applyAction createCols cols a) hnt hm

theorem addColumn_mem_columnActions (expected : List (String × String))
    (existing : ColumnInfo) (name ty : String)
    (hmem : (name, ty) ∈ expected) (hnone : lookupType existing name = none) :
    SchemaAction.addColumn name ty ∈ columnActions expected existing := by
  rw [columnActions, List.mem_flatMap]
  exact ⟨(name, ty), hmem, by simp [hnone]⟩

theorem expected_hasColumn_resulting (expected : List (String × String))
    (createCols : ColumnInfo) (existing : ColumnInfo) (name ty : String)
    (hcc : hasColumn createCols name = true)
    (hmem : (name, ty) ∈ expected) :
    hasColumn (resultingColumns expected createCols existing) name = true := by
  rw [resultingColumns, verify_and_update_table_schema]
  by_cases he : existing.isEmpty
  · simpa [he, List.foldl, applyAction] using hcc
  · simp only [he, if_false]
    cases hl : lookupType existing name with
    | none =>
        exact hasColumn_foldl_added createCols _ existing name ty
          (createTable_not_mem_columnActions expected existing)
          (addColumn_mem_columnActions expected existing name ty hmem hl)
    | some dt =>
        have hhas : hasColumn existing name = true := by
          by_cases hb : hasColumn existing name = true
          · exact hb
          · have : lookupType existing name = none :=
              (lookupType_none_iff existing name).mpr (Bool.eq_false_iff.mpr hb)
            rw [this] at hl; cases hl
        exact hasColumn_foldl_preserved createCols _ existing name
          (createTable_not_mem_columnActions expected existing) hhas

theorem addColumn_mem_iff (expected : List (String × String))
    (existing : ColumnInfo) (name ty : String) (hmem : (name, ty) ∈ expected) :
    SchemaAction.addColumn name ty ∈ columnActions expected existing ↔
      lookupType existing name = none := by
  constructor
  · intro h
    rw [columnActions, List.mem_flatMap] at h
    obtain ⟨p, _, hin⟩ := h
    cases hl : lookupType existing p.1 with
    | none =>
        simp only [hl] at hin
        rw [List.mem_singleton] at hin
        injection hin with h1 h2
        rw [h1]; exact hl
    | some dt =>
        simp only [hl] at hin
        by_cases hne : dt.toLower ≠ p.2.toLower
        · rw [if_pos hne, List.mem_singleton] at hin
          exact SchemaAction.noConfusion hin
        · rw [if_neg hne] at hin
          exact absurd hin (List.not_mem_nil _)
  · exact addColumn_mem_columnActions expected existing name ty hmem

theorem alterColumn_mem_iff (expected : List (String × String))
    (existing : ColumnInfo) (name ty : String) (hmem : (name, ty) ∈ expected) :
    SchemaAction.alterColumnType name ty ∈ columnActions expected existing ↔
      ∃ dt, lookupType existing name = some dt ∧ dt.toLower ≠ ty.toLower := by
  constructor
  · intro h
    rw [columnActions, List.mem_flatMap] at h
    obtain ⟨p, _, hin⟩ := h
    cases hl : lookupType existing p.1 with
    | none =>
        simp only [hl] at hin
        rw [List.mem_singleton] at hin
        exact SchemaAction.noConfusion hin
    | some dt =>
        simp only [hl] at hin
        by_cases hne : dt.toLower ≠ p.2.toLower
        · rw [if_pos hne, List.mem_singleton] at hin
          injection hin with h1 h2
          subst h1; subst h2
          exact ⟨dt, hl, hne⟩
        · rw [if_neg hne] at hin
          exact absurd hin (List.not_mem_nil _)
  · intro ⟨dt, hl, hne⟩
    rw [columnActions, List.mem_flatMap]
    exact ⟨(name, ty), hmem, by simp [hl, hne]⟩

/-- Claim C2: for every reported state of `information_schema.columns` for
`module_tests`, the routine creates the table when no columns are reported;
otherwise it issues an `ADD COLUMN` for exactly the expected columns whose
name is absent and an `ALTER COLUMN TYPE` for exactly those present with a
case-insensitively different reported type; and after it completes every
expected column exists in the table — for both the `fetchCMUdata.py` and
the `uploadFNAL_IVdata.py` versions of the routine. -/
theorem verify_and_update_table_schema_spec (existing : ColumnInfo) :
    (existing = [] →
        verify_and_update_table_schema fetchCMU_expected_columns existing =
          [SchemaAction.createTable] ∧
        verify_and_update_table_schema uploadFNAL_expected_columns existing =
          [SchemaAction.createTable]) ∧
    (∀ name ty, (name, ty) ∈ fetchCMU_expected_columns → existing ≠ [] →
        (SchemaAction.addColumn name ty ∈
            verify_and_update_table_schema fetchCMU_expected_columns existing ↔
          lookupType existing name = none) ∧
        (SchemaAction.alterColumnType name ty ∈
            verify_and_update_table_schema fetchCMU_expected_columns existing ↔
          ∃ dt, lookupType existing name = some dt ∧ dt.toLower ≠ ty.toLower)) ∧
    (∀ name ty, (name, ty) ∈ fetchCMU_expected_columns →
        hasColumn (resultingColumns fetchCMU_expected_columns
          fetchCMU_created_columns existing) name = true) ∧
    (∀ name ty, (name, ty) ∈ uploadFNAL_expected_columns →
        hasColumn (resultingColumns uploadFNAL_expected_columns
          uploadFNAL_created_columns existing) name = true) := by
  refine ⟨?_, ?_, ?_, ?_⟩
  · intro he
    subst he
    constructor <;> rfl
  · intro name ty hmem hne
    have he : existing.isEmpty = false := by
      cases existing with
      | nil => exact absurd rfl hne
      | cons a t => rfl
    rw [verify_and_update_table_schema, he, if_neg (by simp)]
    exact ⟨addColumn_mem_iff _ existing name ty hmem,
      alterColumn_mem_iff _ existing name ty hmem⟩
  · intro name ty hmem
    refine expected_hasColumn_resulting _ _ existing name ty ?_ hmem
    fin_cases hmem <;> decide
  · intro name ty hmem
    refine expected_hasColumn_resulting _ _ existing name ty ?_ hmem
    fin_cases hmem <;> decide

/-- Witness for C2 at concrete schema states: the empty report (table
created) and a one-column report (missing columns added, and present
afterwards). -/
theorem verify_and_update_table_schema_spec_witness :
    (verify_and_update_table_schema fetchCMU_expected_columns [] =
        [SchemaAction.createTable]) ∧
    (SchemaAction.addColumn "test_type" "TEXT" ∈
        verify_and_update_table_schema fetchCMU_expected_columns
          [("module_name", "text")] ↔
      lookupType [("module_name", "text")] "test_type" = none) ∧
    hasColumn (resultingColumns fetchCMU_expected_columns
      fetchCMU_created_columns [("module_name", "text")]) "test_type" = true :=
  ⟨((verify_and_update_table_schema_spec []).1 rfl).1,
   (((verify_and_update_table_schema_spec [("module_name", "text")]).2.1
      "test_type" "TEXT" (by decide) (by decide)).1),
   ((verify_and_update_table_schema_spec [("module_name", "text")]).2.2.1
      "test_type" "TEXT" (by decide))⟩

/-! ### plot_iv_data: row filtering
From `compareIV.py` lines 61-90 (same guard in `fnal_IVcompare.py` lines
72-99).  The loop plots a row when
`voltages and currents and len(voltages) == len(currents)` and otherwise
prints a skip message; `meas_v`/`meas_i` are `real[]` columns that asyncpg
returns as a Python list or None, both falsy when None or empty. -/

/-- One row of the `module_iv_test` result set, with the measurement scalar
abstracted (the guard only inspects presence and lengths). -/
structure IVRow (α : Type) where
  module_name : String
  meas_v : Option (List α)
  meas_i : Option (List α)
  mod_ivtest_no : Nat
deriving DecidableEq

/-- The guard `voltages and currents and len(voltages) == len(currents)`. -/
def shouldRender {α : Type} (r : IVRow α) : Bool :=
  match r.meas_v, r.meas_i with
  | some vs, some cs => !vs.isEmpty && !cs.isEmpty && (vs.length == cs.length)
  | _, _ => false

/-- `plot_iv_data` as the rows plotted and the rows skipped-with-message,
accumulated in loop order. -/
def plot_iv_data {α : Type} (rows : List (IVRow α)) :
    List (IVRow α) × List (IVRow α) :=
  rows.foldl
    (fun acc r =>
      if shouldRender r then (acc.1 ++ [r], acc.2) else (acc.1, acc.2 ++ [r]))
    ([], [])

theorem plot_iv_data_foldl {α : Type} (rows : List (IVRow α))
    (a b : List (IVRow α)) :
    rows.foldl
      (fun acc r =>
        if shouldRender r then (acc.1 ++ [r], acc.2) else (acc.1, acc.2 ++ [r]))
      (a, b) =
    (a ++ rows.filter shouldRender,
     b ++ rows.filter (fun r => !(shouldRender r))) := by
  induction rows generalizing a b with
  | nil => simp
  | cons r t ih =>
      by_cases h : shouldRender r
      · simp [List.foldl, h, ih, List.filter_cons]
      · have h' : shouldRender r = false := Bool.eq_false_iff.mpr h
        simp [List.foldl, h', ih, List.filter_cons]

theorem plot_iv_data_eq_filter {α : Type} (rows : List (IVRow α)) :
    plot_iv_data rows =
      (rows.filter shouldRender,
       rows.filter (fun r => !(shouldRender r))) := by
  simpa using plot_iv_data_foldl rows [] []

theorem shouldRender_iff {α : Type} (r : IVRow α) :
    shouldRender r = true ↔
      ∃ vs cs, r.meas_v = some vs ∧ r.meas_i = some cs ∧
        vs ≠ [] ∧ cs ≠ [] ∧ vs.length = cs.length := by
  cases hv : r.meas_v with
  | none => simp [shouldRender, hv]
  | some vs =>
      cases hc : r.meas_i with
      | none => simp [shouldRender, hv, hc]
      | some cs =>
          simp only [shouldRender, hv, hc, Bool.and_eq_true, beq_iff_eq,
            Bool.not_eq_true']
          constructor
          · intro ⟨⟨h1, h2⟩, h3⟩
            exact ⟨vs, cs, rfl, rfl, by simpa using h1, by simpa using h2, h3⟩
          · intro ⟨vs', cs', hv', hc', h1, h2, h3⟩
            cases hv'; cases hc'
            exact ⟨⟨by simpa using h1, by simpa using h2⟩, h3⟩

/-- Claim C3: a row is plotted iff its voltage and current arrays are both
present and non-empty and of equal length; every other row is skipped with a
printed message; and the plotted rows are exactly the pointwise filter of
the input, so a skip does not affect the remaining rows. -/
theorem plot_iv_data_spec {α : Type} (rows : List (IVRow α)) (r : IVRow α) :
    ((plot_iv_data rows).1 = rows.filter shouldRender) ∧
    (r ∈ (plot_iv_data rows).1 ↔
      r ∈ rows ∧ ∃ vs cs, r.meas_v = some vs ∧ r.meas_i = some cs ∧
        vs ≠ [] ∧ cs ≠ [] ∧ vs.length = cs.length) ∧
    (r ∈ (plot_iv_data rows).2 ↔ r ∈ rows ∧ shouldRender r = false) := by
  rw [plot_iv_data_eq_filter]
  refine ⟨rfl, ?_, ?_⟩
  · rw [List.mem_filter, shouldRender_iff]
  · rw [List.mem_filter]
    simp

/-! ### Error handling
Transcription of the exception handlers around the error classes the spec
names.  For each handler-protected region we record, per error kind, whether
the error is printed and whether it still propagates out of the script
(neither script wraps its `main` in a try/except, so an exception escaping
a function escapes the script). -/

/-- The error classes the spec names, plus a catch-all. -/
inductive ScriptError where
  | duplicateDatabase : ScriptError
  | missingColumn : ScriptError
  | malformedInputFile : ScriptError
  | otherError : ScriptError
deriving DecidableEq, Repr

/-- What happens to an error raised in a region: is a message printed, and
does the exception propagate out of the script. -/
structure ErrorOutcome where
  printed : Bool
  propagates : Bool
deriving DecidableEq, Repr

/-- `fetchCMUdata.py` lines 13-29 (`create_local_database`; identical
handler in `uploadFNAL_IVdata.py` lines 22-39):
`except DuplicateDatabaseError: print` — caught;
`except Exception as e: print(...); raise` — printed, then re-raised. -/
def create_local_database_onError : ScriptError → ErrorOutcome
  | ScriptError.duplicateDatabase => ⟨true, false⟩
  | _ => ⟨true, true⟩

/-- `readFNALDb.py` lines 54-63 (`read_module_tests`):
`except Exception as e: print` with no re-raise — every error, including a
missing-column error from the fixed SELECT list, is caught and printed. -/
def read_module_tests_onError : ScriptError → ErrorOutcome :=
  fun _ => ⟨true, false⟩

/-- `createLocalDb.py` lines 30-36 (`create_database`):
`except DuplicateDatabaseError: print`; no handler for anything else, so
other errors propagate unprinted (the `finally` only closes the
connection). -/
def create_database_onError : ScriptError → ErrorOutcome
  | ScriptError.duplicateDatabase => ⟨true, false⟩
  | _ => ⟨false, true⟩

/-- `uploadFNAL_IVdata.py` lines 125-164 (`read_text_file` /
`parse_iv_file`) run under no try/except in `main`, so a malformed input
file makes `pd.read_csv` (or the later `.abs()`) raise an exception that
propagates out of the script unprinted. -/
def parse_iv_file_onError : ScriptError → ErrorOutcome :=
  fun _ => ⟨false, true⟩

/-- The claim's property of an outcome: caught (printed) and not
propagated. -/
def caughtAndPrinted (o : ErrorOutcome) : Bool := o.printed && !o.propagates

/-- Counterexample to C4 as stated: a malformed input file in
`uploadFNAL_IVdata.py` propagates uncaught, and a non-duplicate error in
`fetchCMUdata.py`'s `create_local_database` is printed and then re-raised,
so both propagate out of the script. -/
theorem error_handling_counterexample :
    caughtAndPrinted (parse_iv_file_onError ScriptError.malformedInputFile) = false ∧
    (parse_iv_file_onError ScriptError.malformedInputFile).propagates = true ∧
    caughtAndPrinted (create_local_database_onError ScriptError.otherError) = false ∧
    (create_local_database_onError ScriptError.otherError).printed = true := by
  decide

/-- Claim C4 (amended): duplicate-database errors are caught and printed
without propagating in both database-creating scripts, and every error in
`read_module_tests` is caught and printed; but a non-duplicate error in
`create_local_database` is printed and re-raised, and a malformed input
file in `uploadFNAL_IVdata.py` propagates uncaught and unprinted. -/
theorem error_handling_spec :
    create_local_database_onError ScriptError.duplicateDatabase = ⟨true, false⟩ ∧
    create_database_onError ScriptError.duplicateDatabase = ⟨true, false⟩ ∧
    (∀ e, read_module_tests_onError e = ⟨true, false⟩) ∧
    create_local_database_onError ScriptError.otherError = ⟨true, true⟩ ∧
    parse_iv_file_onError ScriptError.malformedInputFile = ⟨false, true⟩ := by
  refine ⟨rfl, rfl, fun e => rfl, rfl, rfl⟩

/-! ### Connection lifecycle
Each function that opens a connection is transcribed as the ordered list of
connection events on its normal (non-raising) path: `openConn` for
`asyncpg.connect`, `fetch`/`execute` for a round trip, `delegate f` for
passing the open connection to another function `f`, `closeConn` for
`conn.close()`. -/

/-- A connection event on a function's normal execution path. -/
inductive ConnEvent where
  | openConn : ConnEvent
  | fetch : ConnEvent
  | execute : ConnEvent
  | closeConn : ConnEvent
  | delegate : String → ConnEvent
deriving DecidableEq, Repr

/-- Simulation state: number of connections currently open, or `none` once
an event used a closed connection. -/
def connStep : Option Nat → ConnEvent → Option Nat
  | none, _ => none
  | some k, ConnEvent.openConn => some (k + 1)
  | some k, ConnEvent.closeConn => if k == 0 then none else some (k - 1)
  | some k, _ => if k == 0 then none else some k

/-- A trace is well bracketed when every event happens on an open
connection and every opened connection is closed by the end. -/
def wellBracketed (tr : List ConnEvent) : Bool :=
  tr.foldl connStep (some 0) == some 0

/-- The functions the open connection is handed to. -/
def delegations (tr : List ConnEvent) : List String :=
  tr.filterMap (fun e =>
    match e with
    | ConnEvent.delegate f => some f
    | _ => none)

/-- The claim's property of a trace: closed on normal return and never
shared with another function. -/
def connPrivate (tr : List ConnEvent) : Bool :=
  wellBracketed tr && (delegations tr == [])

/-- `compareIV.py` lines 12-39 `fetch_testing_data` (same shape in
`getall_modules.py` and `fnal_IVcompare.py`): connect, one fetch, close. -/
def compareIV_fetch_testing_data_trace : List ConnEvent :=
  [ConnEvent.openConn, ConnEvent.fetch, ConnEvent.closeConn]

/-- `compareIV.py` lines 41-59 `fetch_all_module_names` (same shape in
`getall_modules.py` lines 40-54 and `fnal_IVcompare.py`): connect, one
fetch, close. -/
def fetch_all_module_names_trace : List ConnEvent :=
  [ConnEvent.openConn, ConnEvent.fetch, ConnEvent.closeConn]

/-- `fetchCMUdata.py` lines 97-137 `fetch_testing_data`: connect, two
fetches, close. -/
def fetchCMU_fetch_testing_data_trace : List ConnEvent :=
  [ConnEvent.openConn, ConnEvent.fetch, ConnEvent.fetch, ConnEvent.closeConn]

/-- `fetchCMUdata.py` lines 10-29 `create_local_database` (identical shape
in `uploadFNAL_IVdata.py` and in `createLocalDb.py`'s `create_database`):
connect, one CREATE DATABASE execute, close. -/
def create_local_database_trace : List ConnEvent :=
  [ConnEvent.openConn, ConnEvent.execute, ConnEvent.closeConn]

/-- `createLocalDb.py` lines 38-64 `setup_table`: connect, CREATE TABLE,
INSERT, close. -/
def setup_table_trace : List ConnEvent :=
  [ConnEvent.openConn, ConnEvent.execute, ConnEvent.execute,
   ConnEvent.closeConn]

/-- `readFNALDb.py` lines 12-63 `read_module_tests`: connect, one fetch,
close (normal path). -/
def read_module_tests_trace : List ConnEvent :=
  [ConnEvent.openConn, ConnEvent.fetch, ConnEvent.closeConn]

/-- `fetchCMUdata.py` lines 139-181 `upload_to_local_db` with `n` data rows
(same shape in `uploadFNAL_IVdata.py` lines 166-200): connect, hand the
connection to `verify_and_update_table_schema`, one INSERT per row,
close. -/
def upload_to_local_db_trace (n : Nat) : List ConnEvent :=
  ConnEvent.openConn :: ConnEvent.delegate "verify_and_update_table_schema" ::
    (List.replicate n ConnEvent.execute ++ [ConnEvent.closeConn])

/-- All connection-opening functions of the repository, with the upload
loop at `n` rows. -/
def allConnTraces (n : Nat) : List (List ConnEvent) :=
  [compareIV_fetch_testing_data_trace, fetch_all_module_names_trace,
   fetchCMU_fetch_testing_data_trace, create_local_database_trace,
   setup_table_trace, read_module_tests_trace, upload_to_local_db_trace n]

/-- Counterexample to C5 as stated: `upload_to_local_db` closes its
connection on return but hands it to `verify_and_update_table_schema`
first, so the connection is shared between functions. -/
theorem connection_sharing_counterexample :
    connPrivate (upload_to_local_db_trace 1) = false ∧
    wellBracketed (upload_to_local_db_trace 1) = true ∧
    delegations (upload_to_local_db_trace 1) =
      ["verify_and_update_table_schema"] := by
  decide

theorem foldl_connStep_execute (n : Nat) :
    (List.replicate n ConnEvent.execute).foldl connStep (some 1) = some 1 := by
  induction n with
  | zero => rfl
  | succ m ih => simpa [List.replicate_succ, List.foldl, connStep] using ih

/-- Claim C5 (amended): every function that opens a connection closes it
before returning on its normal path — for the upload loop at every row
count — so no connection outlives its opening function; the only sharing
is `upload_to_local_db` handing its open connection to
`verify_and_update_table_schema` before inserting. -/
theorem connection_lifecycle_spec (n : Nat) :
    (allConnTraces n).all wellBracketed = true ∧
    delegations (upload_to_local_db_trace n) =
      ["verify_and_update_table_schema"] ∧
    (allConnTraces n).all
      (fun tr => (delegations tr).all
        (fun f => f == "verify_and_update_table_schema")) = true := by
  have hup : wellBracketed (upload_to_local_db_trace n) = true := by
    simp only [wellBracketed, upload_to_local_db_trace, List.foldl,
      List.foldl_append]
    have h1 : connStep (connStep (some 0) ConnEvent.openConn)
        (ConnEvent.delegate "verify_and_update_table_schema") = some 1 := rfl
    rw [h1, foldl_connStep_execute n]
    rfl
  refine ⟨?_, ?_, ?_⟩
  · simp only [allConnTraces, List.all_cons, List.all_nil, hup]
    decide
  · simp only [upload_to_local_db_trace, delegations, List.filterMap,
      List.filterMap_append]
    induction n with
    | zero => rfl
    | succ m ih => simp [List.replicate_succ, List.filterMap]
  · simp only [allConnTraces, List.all_cons, List.all_nil]
    have hd : delegations (upload_to_local_db_trace n) =
        ["verify_and_update_table_schema"] := by
      simp only [upload_to_local_db_trace, delegations, List.filterMap,
        List.filterMap_append]
      induction n with
      | zero => rfl
      | succ m ih => simp [List.replicate_succ, List.filterMap]
    rw [hd]
    decide

/-! ### Database round trips per run
`fetchCMUdata.py`'s `main` (lines 183-214): create_local_database issues
one statement, fetch_testing_data two fetches, and — when rows were
found — upload_to_local_db issues the information_schema fetch, one
statement per schema action, and one INSERT per row. -/

/-- Round trips of `verify_and_update_table_schema`: the
information_schema fetch plus one statement per issued action. -/
def verify_schema_roundTrips (existing : ColumnInfo) : Nat :=
  1 + (verify_and_update_table_schema fetchCMU_expected_columns existing).length

/-- Round trips of `upload_to_local_db` for `n` fetched rows. -/
def upload_to_local_db_roundTrips (existing : ColumnInfo) (n : Nat) : Nat :=
  verify_schema_roundTrips existing + n

/-- Round trips of one `fetchCMUdata.py` run: CREATE DATABASE, the two
fetches, and the upload phase when any rows were fetched. -/
def fetchCMU_main_roundTrips (existing : ColumnInfo) (n : Nat) : Nat :=
  1 + 2 + (if n = 0 then 0 else upload_to_local_db_roundTrips existing n)

/-- Counterexample to C6 as stated: even a run of `fetchCMUdata.py` that
finds no rows at all performs three database round trips, more than two. -/
theorem roundTrips_counterexample :
    fetchCMU_main_roundTrips [] 0 = 3 ∧ ¬(fetchCMU_main_roundTrips [] 0 ≤ 2) := by
  decide

/-- Claim C6 (amended): a `fetchCMUdata.py` run performs three fixed round
trips (CREATE DATABASE and two fetches) plus, when rows were found, one
schema query, one statement per schema action, and one INSERT per row — at
least three round trips, not at most two. -/
theorem fetchCMU_roundTrips_spec (existing : ColumnInfo) (n : Nat) :
    fetchCMU_main_roundTrips existing n =
      3 + (if n = 0 then 0 else
        1 + (verify_and_update_table_schema fetchCMU_expected_columns
              existing).length + n) ∧
    3 ≤ fetchCMU_main_roundTrips existing n := by
  constructor
  · by_cases h : n = 0
    · rw [fetchCMU_main_roundTrips, if_pos h, if_pos h]
    · rw [fetchCMU_main_roundTrips, if_neg h, if_neg h,
        upload_to_local_db_roundTrips, verify_schema_roundTrips]
  · by_cases h : n = 0
    · rw [fetchCMU_main_roundTrips, if_pos h]
    · rw [fetchCMU_main_roundTrips, if_neg h]
      omega

/-! ### Connection credentials
Every `asyncpg.connect` call of the repository, with the source of its
`user` and `password` arguments.  `db_password = os.getenv("DB_PASSWORD")`
at `fetchCMUdata.py` line 9, `uploadFNAL_IVdata.py` line 14,
`readFNALDb.py` line 10 and `createLocalDb.py` line 10; the remote MAC
connections in the fetch scripts pass `user='viewer'` and no password. -/

/-- Where a connect-call argument comes from. -/
inductive CredSource where
  | literal : String → CredSource
  | envVar : String → CredSource
  | absent : CredSource
deriving DecidableEq, Repr

/-- One `asyncpg.connect` call: script, enclosing function, and the
sources of its `user` and `password` arguments. -/
structure ConnectCall where
  script : String
  func : String
  user : CredSource
  password : CredSource
deriving DecidableEq, Repr

/-- All `asyncpg.connect` calls in the repository. -/
def connectCalls : List ConnectCall :=
  [⟨"compareIV.py", "fetch_testing_data",
      CredSource.literal "viewer", CredSource.absent⟩,
   ⟨"compareIV.py", "fetch_all_module_names",
      CredSource.literal "viewer", CredSource.absent⟩,
   ⟨"fnal_IVcompare.py", "fetch_testing_data",
      CredSource.literal "viewer", CredSource.absent⟩,
   ⟨"fnal_IVcompare.py", "fetch_all_module_names",
      CredSource.literal "viewer", CredSource.absent⟩,
   ⟨"getall_modules.py", "fetch_testing_data",
      CredSource.literal "viewer", CredSource.absent⟩,
   ⟨"getall_modules.py", "fetch_all_module_names",
      CredSource.literal "viewer", CredSource.absent⟩,
   ⟨"fetchCMUdata.py", "create_local_database",
      CredSource.literal "postgres", CredSource.envVar "DB_PASSWORD"⟩,
   ⟨"fetchCMUdata.py", "fetch_testing_data",
      CredSource.literal "viewer", CredSource.absent⟩,
   ⟨"fetchCMUdata.py", "upload_to_local_db",
      CredSource.literal "postgres", CredSource.envVar "DB_PASSWORD"⟩,
   ⟨"uploadFNAL_IVdata.py", "create_local_database",
      CredSource.literal "postgres", CredSource.envVar "DB_PASSWORD"⟩,
   ⟨"uploadFNAL_IVdata.py", "upload_to_local_db",
      CredSource.literal "postgres", CredSource.envVar "DB_PASSWORD"⟩,
   ⟨"readFNALDb.py", "read_module_tests",
      CredSource.literal "postgres", CredSource.envVar "DB_PASSWORD"⟩,
   ⟨"createLocalDb.py", "create_database",
      CredSource.literal "postgres", CredSource.envVar "DB_PASSWORD"⟩,
   ⟨"createLocalDb.py", "setup_table",
      CredSource.literal "postgres", CredSource.envVar "DB_PASSWORD"⟩]

/-- The claim's property of a connect call: both user and password come
from environment variables, the password from `DB_PASSWORD`. -/
def credsFromEnv (c : ConnectCall) : Bool :=
  (match c.user with
   | CredSource.envVar _ => true
   | _ => false) &&
  (c.password == CredSource.envVar "DB_PASSWORD")

/-- Counterexample to C7 as stated: the remote-MAC connect call in
`compareIV.py`'s `fetch_testing_data` hard-codes `user='viewer'` and
passes no password at all. -/
theorem credentials_counterexample :
    (⟨"compareIV.py", "fetch_testing_data",
        CredSource.literal "viewer", CredSource.absent⟩ : ConnectCall) ∈
      connectCalls ∧
    credsFromEnv ⟨"compareIV.py", "fetch_testing_data",
        CredSource.literal "viewer", CredSource.absent⟩ = false ∧
    connectCalls.all credsFromEnv = false := by
  decide

/-- Claim C7 (amended): in every connect call the user name is a
hard-coded literal; every call that passes a password at all takes it from
the `DB_PASSWORD` environment variable, and the calls passing no password
are exactly the remote reads as user "viewer". -/
theorem credentials_spec :
    connectCalls.all
      (fun c =>
        (match c.user with
         | CredSource.literal _ => true
         | _ => false) &&
        ((c.password == CredSource.envVar "DB_PASSWORD") ||
          (c.password == CredSource.absent)) &&
        ((c.password == CredSource.absent) ==
          (c.user == CredSource.literal "viewer"))) = true := by
  decide

/-! ### Command-line module-name normalization
`compareIV.py` line 114 (same line in `getall_modules.py` line 84/325 and
`fnal_IVcompare.py`):
`module_names = ['ALL'] if not args.module_names else
                [mn.upper() for mn in args.module_names]`;
`fetchCMUdata.py` line 189: `module_name = args.module_name.upper()`;
`readFNALDb.py` line 69:
`module_name = args.module_name.upper() if args.module_name else None`. -/

/-- Python's `str.upper()`: uppercase character by character
(`Char.toUpper` uppercases the ASCII range, as the module names use). -/
def pyUpper (s : String) : String := String.mk (s.data.map Char.toUpper)

/-- The module list handed to `fetch_testing_data` in `compareIV.py`,
`getall_modules.py` and `fnal_IVcompare.py`, from the optional
command-line list. -/
def normalize_module_names (supplied : Option (List String)) : List String :=
  match supplied with
  | none => ["ALL"]
  | some names => names.map pyUpper

/-- The module name handed to `fetch_testing_data` in `fetchCMUdata.py`. -/
def fetchCMU_normalize_module_name (supplied : String) : String :=
  pyUpper supplied

/-- The module name handed to `read_module_tests` in `readFNALDb.py`. -/
def readFNAL_normalize_module_name (supplied : Option String) : Option String :=
  match supplied with
  | none => none
  | some name => some (pyUpper name)

/-- Claim C8: whenever module names are supplied on the command line, the
names actually used for the database query are exactly their element-wise
uppercasing — and when that uppercased list does not start with "ALL" it
is passed verbatim as the query parameters. -/
theorem module_name_uppercase_spec (names : List String) (name : String) :
    normalize_module_names (some names) = names.map pyUpper ∧
    fetchCMU_normalize_module_name name = pyUpper name ∧
    readFNAL_normalize_module_name (some name) = some (pyUpper name) ∧
    ((names.map pyUpper).head? ≠ some "ALL" →
      fetchParams (some (normalize_module_names (some names))) =
        names.map pyUpper) := by
  refine ⟨rfl, rfl, rfl, fun h => ?_⟩
  cases hn : names with
  | nil => rfl
  | cons a t =>
      have hb : (((a :: t).map pyUpper).head? == some "ALL") = false := by
        rw [beq_eq_false_iff_ne]
        rw [hn] at h
        exact h
      simp only [normalize_module_names, fetchParams, List.map_cons] at *
      rw [hb]
      simp

/-- Witness for C8 at the concrete command line `-mn hd10 hd11`. -/
theorem module_name_uppercase_spec_witness :
    normalize_module_names (some ["hd10", "hd11"]) =
      ["hd10", "hd11"].map pyUpper ∧
    fetchParams (some (normalize_module_names (some ["hd10", "hd11"]))) =
      ["hd10", "hd11"].map pyUpper :=
  ⟨(module_name_uppercase_spec ["hd10", "hd11"] "x").1,
   (module_name_uppercase_spec ["hd10", "hd11"] "x").2.2.2 (by decide)⟩

/-! ### IVCurveAnalyzer.load_data
From `compareIV_oneModuleDifferentRH.py` lines 107-135: for each data
directory the sorted file list is zipped with the module's condition list
(`for file_path, condition in zip(files, module_conditions)`), loading one
file per pair; a warning is logged only when
`len(files) > len(module_conditions)`. -/

/-- The `(file, condition)` pairs loaded from one directory. -/
def load_data_pairs (files conditions : List String) :
    List (String × String) :=
  files.zip conditions

/-- Whether the mismatch warning is logged for one directory. -/
def load_data_warns (files conditions : List String) : Bool :=
  decide (conditions.length < files.length)

/-- `load_data` over all directories: the same condition list is zipped
against each directory's sorted files. -/
def load_data (dirsFiles : List (List String)) (conditions : List String) :
    List (String × String) :=
  dirsFiles.flatMap (fun files => load_data_pairs files conditions)

theorem zip_get? {α β : Type} (xs : List α) (ys : List β) (i : Nat)
    (x : α) (y : β) (hx : xs.get? i = some x) (hy : ys.get? i = some y) :
    (xs.zip ys).get? i = some (x, y) := by
  induction xs generalizing ys i with
  | nil => simp at hx
  | cons a t ih =>
      cases ys with
      | nil => simp at hy
      | cons b u =>
          cases i with
          | zero =>
              simp only [List.get?] at hx hy
              cases hx; cases hy
              rfl
          | succ j =>
              simp only [List.get?] at hx hy ⊢
              exact ih u j hx hy

/-- Claim C10: per data directory, `load_data` loads exactly
`min(number of files, number of conditions)` files, pairing the i-th file
in sorted order with the i-th condition label; files beyond the condition
count are silently dropped, and the warning is logged exactly when there
are more files than conditions (not when there are fewer). -/
theorem load_data_zip_spec (files conditions : List String) :
    (load_data_pairs files conditions).length =
      min files.length conditions.length ∧
    (∀ i f c, files.get? i = some f → conditions.get? i = some c →
      (load_data_pairs files conditions).get? i = some (f, c)) ∧
    (load_data_warns files conditions = true ↔
      conditions.length < files.length) := by
  refine ⟨?_, ?_, ?_⟩
  · simp [load_data_pairs, List.length_zip]
  · intro i f c hf hc
    exact zip_get? files conditions i f c hf hc
  · simp [load_data_warns]

/-- Witness for C10: three files against two conditions load two pairs,
index-aligned, with the warning logged. -/
theorem load_data_zip_spec_witness :
    (load_data_pairs ["a.txt", "b.txt", "c.txt"] ["cond1", "cond2"]).length =
      min 3 2 ∧
    (load_data_pairs ["a.txt", "b.txt", "c.txt"] ["cond1", "cond2"]).get? 1 =
      some ("b.txt", "cond2") ∧
    load_data_warns ["a.txt", "b.txt", "c.txt"] ["cond1", "cond2"] = true :=
  ⟨(load_data_zip_spec ["a.txt", "b.txt", "c.txt"] ["cond1", "cond2"]).1,
   (load_data_zip_spec ["a.txt", "b.txt", "c.txt"] ["cond1", "cond2"]).2.1
      1 "b.txt" "cond2" (by decide) (by decide),
   (load_data_zip_spec ["a.txt", "b.txt", "c.txt"] ["cond1", "cond2"]).2.2.mpr
      (by decide)⟩

/-! ### parse_timestamp_from_filename
From `uploadFNAL_IVdata.py` lines 110-123:

  match = re.search(r'(\d\x7b8\x7d)_(\d\x7b6\x7d)', filename)
  if match: try strptime("%Y%m%d_%H%M%S") ... except ValueError: fall through
  return datetime.now()

`re.search` returns the leftmost occurrence of the fixed-width 15-character
pattern (eight digits, underscore, six digits), modelled as the least
starting index that matches.  `datetime.strptime` with this separator-free
format must split the eight date digits 4-2-2 and the six time digits
2-2-2 (every alternative width leaves digits before the literal `_` or at
the end), and the `datetime` constructor then accepts exactly years
1-9999, months 1-12, days within the proleptic-Gregorian month length,
hours 0-23, minutes 0-59 and seconds 0-59; anything else raises
`ValueError`, which the function turns into the current-time fallback.
The fallback `datetime.now()` is modelled as `none`. -/

/-- `\d` on the ASCII digits the filenames use. -/
def isDig (c : Char) : Bool := ('0' ≤ c) && (c ≤ '9')

/-- Whether the pattern `\d\x7b8\x7d_\d\x7b6\x7d` matches at index `i`. -/
def matchAt (cs : List Char) (i : Nat) : Bool :=
  decide (i + 15 ≤ cs.length) &&
  ((List.range 8).all (fun k => isDig (cs.getD (i + k) ' '))) &&
  (cs.getD (i + 8) ' ' == '_') &&
  ((List.range 6).all (fun k => isDig (cs.getD (i + 9 + k) ' ')))

/-- Left-to-right scan for the first matching index, as `re.search` does. -/
def scanFrom (cs : List Char) (i : Nat) : Nat → Option Nat
  | 0 => none
  | fuel + 1 => if matchAt cs i then some i else scanFrom cs (i + 1) fuel

/-- `re.search(r'(\d\x7b8\x7d)_(\d\x7b6\x7d)', filename)`: index of the
leftmost match, if any. -/
def reSearch (cs : List Char) : Option Nat := scanFrom cs 0 cs.length

/-- Numeric value of a digit string, most significant first. -/
def digitsToNat (cs : List Char) : Nat :=
  cs.foldl (fun a c => 10 * a + (c.toNat - Char.toNat '0')) 0

/-- Value of the `n` digits starting at index `i`. -/
def sliceNat (cs : List Char) (i n : Nat) : Nat :=
  digitsToNat ((cs.drop i).take n)

/-- A parsed wall-clock timestamp. -/
structure Timestamp where
  year : Nat
  month : Nat
  day : Nat
  hour : Nat
  minute : Nat
  second : Nat
deriving DecidableEq, Repr

/-- Proleptic-Gregorian leap year, as Python's `datetime` uses. -/
def isLeapYear (y : Nat) : Bool := (y % 4 == 0 && y % 100 != 0) || (y % 400 == 0)

/-- Days in a month of the proleptic-Gregorian calendar. -/
def daysInMonth (y m : Nat) : Nat :=
  if m == 2 then (if isLeapYear y then 29 else 28)
  else if m == 4 || m == 6 || m == 9 || m == 11 then 30
  else 31

/-- The field ranges the `datetime` constructor accepts. -/
def validTimestamp (t : Timestamp) : Bool :=
  decide (1 ≤ t.year ∧ t.year ≤ 9999 ∧ 1 ≤ t.month ∧ t.month ≤ 12 ∧
    1 ≤ t.day ∧ t.day ≤ daysInMonth t.year t.month ∧
    t.hour ≤ 23 ∧ t.minute ≤ 59 ∧ t.second ≤ 59)

/-- The timestamp encoded by the fifteen matched characters at index `i`:
`YYYYMMDD_HHMMSS` split 4-2-2 and 2-2-2. -/
def decodeAt (cs : List Char) (i : Nat) : Timestamp :=
  ⟨sliceNat cs i 4, sliceNat cs (i + 4) 2, sliceNat cs (i + 6) 2,
   sliceNat cs (i + 9) 2, sliceNat cs (i + 11) 2, sliceNat cs (i + 13) 2⟩

/-- `datetime.strptime(f"{date_str}_{time_str}", "%Y%m%d_%H%M%S")` on the
matched slice: the decoded timestamp when its fields are in range,
`none` for the `ValueError` path. -/
def strptimeAt (cs : List Char) (i : Nat) : Option Timestamp :=
  if validTimestamp (decodeAt cs i) then some (decodeAt cs i) else none

/-- `parse_timestamp_from_filename`, with `none` standing for the
`datetime.now()` fallback.  A total function: the Python never raises. -/
def parse_timestamp_from_filename (filename : String) : Option Timestamp :=
  match reSearch filename.data with
  | some i => strptimeAt filename.data i
  | none => none

theorem matchAt_le_length (cs : List Char) (i : Nat)
    (h : matchAt cs i = true) : i + 15 ≤ cs.length := by
  simp only [matchAt, Bool.and_eq_true, decide_eq_true_eq] at h
  exact h.1.1.1

theorem scanFrom_some (cs : List Char) (i fuel j : Nat)
    (h : scanFrom cs i fuel = some j) :
    matchAt cs j = true ∧ i ≤ j ∧
      ∀ k, i ≤ k → k < j → matchAt cs k = false := by
  induction fuel generalizing i with
  | zero => simp [scanFrom] at h
  | succ f ih =>
      rw [scanFrom] at h
      by_cases hm : matchAt cs i = true
      · rw [if_pos hm] at h
        cases h
        exact ⟨hm, Nat.le_refl _, fun k hk1 hk2 => absurd hk2 (by omega)⟩
      · rw [if_neg hm] at h
        obtain ⟨h1, h2, h3⟩ := ih (i + 1) h
        refine ⟨h1, by omega, fun k hk1 hk2 => ?_⟩
        by_cases hk : k = i
        · subst hk
          exact Bool.eq_false_iff.mpr hm
        · exact h3 k (by omega) hk2

theorem scanFrom_complete (cs : List Char) (fuel i j : Nat)
    (hj : matchAt cs j = true) (hij : i ≤ j) (hlt : j < i + fuel)
    (hmin : ∀ k, i ≤ k → k < j → matchAt cs k = false) :
    scanFrom cs i fuel = some j := by
  induction fuel generalizing i with
  | zero => omega
  | succ f ih =>
      rw [scanFrom]
      by_cases hm : matchAt cs i = true
      · have hieq : i = j := by
          rcases Nat.lt_or_ge i j with hlt2 | hge
          · have hf := hmin i (Nat.le_refl i) hlt2
            rw [hf] at hm
            cases hm
          · omega
        rw [if_pos hm, hieq]
      · have hne : i ≠ j := fun he => hm (he ▸ hj)
        rw [if_neg hm]
        exact ih (i + 1) (by omega) (by omega)
          (fun k hk1 hk2 => hmin k (by omega) hk2)

/-- Claim C9: for every filename, when the pattern of eight digits,
underscore, six digits has a leftmost match whose fields decode to a valid
date and time, the function returns that decoded timestamp; when the
leftmost match decodes to out-of-range fields, or when there is no match
at all, it returns the current-time fallback (`none` here); being a total
function of the filename, it never raises. -/
theorem parse_timestamp_from_filename_spec (filename : String) :
    (∀ i, matchAt filename.data i = true →
      (∀ j, j < i → matchAt filename.data j = false) →
      (validTimestamp (decodeAt filename.data i) = true →
        parse_timestamp_from_filename filename =
          some (decodeAt filename.data i)) ∧
      (validTimestamp (decodeAt filename.data i) = false →
        parse_timestamp_from_filename filename = none)) ∧
    ((∀ i, matchAt filename.data i = false) →
      parse_timestamp_from_filename filename = none) := by
  constructor
  · intro i hm hmin
    have hr : reSearch filename.data = some i := by
      rw [reSearch]
      refine scanFrom_complete filename.data filename.data.length 0 i hm
        (Nat.zero_le i) ?_ (fun k _ hk2 => hmin k hk2)
      have := matchAt_le_length filename.data i hm
      omega
    constructor
    · intro hv
      simp only [parse_timestamp_from_filename, hr, strptimeAt, hv, if_true]
    · intro hv
      simp only [parse_timestamp_from_filename, hr, strptimeAt, hv,
        Bool.false_eq_true, if_false]
  · intro hall
    cases hr : reSearch filename.data with
    | none => simp only [parse_timestamp_from_filename, hr]
    | some j =>
        exfalso
        obtain ⟨hj, _, _⟩ :=
          scanFrom_some filename.data 0 filename.data.length j hr
        rw [hall j] at hj
        cases hj

/-- Witness for C9 at the filename `iv_MOD_20250115_143022.txt`: the
leftmost match is at index 7 and decodes to 2025-01-15 14:30:22. -/
theorem parse_timestamp_from_filename_spec_witness :
    parse_timestamp_from_filename "iv_MOD_20250115_143022.txt" =
      some (decodeAt ("iv_MOD_20250115_143022.txt").data 7) ∧
    decodeAt ("iv_MOD_20250115_143022.txt").data 7 =
      ⟨2025, 1, 15, 14, 30, 22⟩ :=
  ⟨((parse_timestamp_from_filename_spec "iv_MOD_20250115_143022.txt").1 7
      (by decide) (by decide)).1 (by decide),
   by decide⟩

end ModuleQC
